import Mathlib

/-!
Shallow embedding of `src/nf_conntrack_ssdp.c`, a netfilter connection
tracking helper for UPnP SSDP, together with theorems settling the spec
claims.

Modelling conventions:
* 32-bit addresses and 16-bit ports are `Nat` values carrying the same
  numeric content as the C `__be32`/`__be16` fields; all comparisons in the
  source compare values of the same representation, so byte-order
  conversions (`cpu_to_be32`) are identity in the model.
* `struct sk_buff` is reduced to the parts the helper reads: the receiving
  device's name, the result of `in_dev_get` (its IPv4 address list, or
  `none` when the device has no IPv4 configuration), and the UDP payload
  bytes that follow the UDP header at `protoff`.
* `pr_warn` diagnostics are collected into a `Warn` list; `pr_debug`
  messages are compiled out by default in the kernel and are not modelled.
* `nf_ct_expect_alloc` may fail; its success is the Boolean `allocOk`
  input.  Registered expectations (`nf_ct_expect_related`) are returned as
  a list.
-/

namespace NfSsdp

/-- `SSDP_MCAST_ADDR` — 239.255.255.250, from line 19 of the source. -/
def SSDP_MCAST_ADDR : Nat := 0xeffffffa

/-- `SSDP_UDP_PORT`, line 20. -/
def SSDP_UDP_PORT : Nat := 1900

/-- The bytes of the `"M-SEARCH"` literal (line 21): M,-,S,E,A,R,C,H. -/
def SSDP_M_SEARCH : List Nat := [0x4d, 0x2d, 0x53, 0x45, 0x41, 0x52, 0x43, 0x48]

/-- `SSDP_M_SEARCH_SIZE = sizeof "M-SEARCH" - 1 = 8`, line 22. -/
def SSDP_M_SEARCH_SIZE : Nat := 8

/-- `struct nf_conntrack_tuple`, restricted to the fields the helper reads
or writes: source/destination address and UDP port, plus the layer-3 and
layer-4 protocol numbers (the remaining fields covered by the `memset` on
line 103). -/
structure ConnTuple where
  srcIp : Nat
  srcPort : Nat
  dstIp : Nat
  dstPort : Nat
  l3num : Nat
  protonum : Nat
deriving DecidableEq, Repr

/-- One `struct in_ifaddr` entry of a device's `ifa_list`. -/
structure Ifaddr where
  ifa_local : Nat
  ifa_mask : Nat
  ifa_label : String
deriving DecidableEq, Repr

/-- The parts of `struct sk_buff` the helper reads.  `inDev` is the result
of `in_dev_get(skb->dev)`: `none` when the device has no IPv4
configuration, otherwise the device's `ifa_list`.  `payload` holds the UDP
payload bytes starting at `protoff + sizeof(struct udphdr)`. -/
structure SkBuff where
  devName : String
  inDev : Option (List Ifaddr)
  payload : List Nat
deriving DecidableEq, Repr

/-- The two tuples of `ct->tuplehash` read by `ssdp_help`. -/
structure NfConn where
  origTuple : ConnTuple
  replyTuple : ConnTuple
deriving DecidableEq, Repr

/-- The `pr_warn` diagnostics the module can emit (lines 38, 52, 97). -/
inductive Warn where
  | noIpv4Addresses (dev : String)
  | srcAddrNotAssigned (src : Nat) (dev : String)
  | memAllocFailure
deriving DecidableEq, Repr

/-- The netfilter verdicts returned by `ssdp_help`. -/
inductive Verdict where
  | accept
  | drop
deriving DecidableEq, Repr

/-- `struct nf_conntrack_expect`, restricted to the fields `ssdp_help`
writes: the expected tuple, the mask, `flags` and `class` (lines 101-108;
`expectfn` and `helper` are set to NULL, modelled by `Option Unit`). -/
structure NfExpect where
  tuple : ConnTuple
  mask : ConnTuple
  expectfn : Option Unit
  flags : Nat
  cls : Nat
  helper : Option Unit
deriving DecidableEq, Repr

/-- `NF_CT_EXPECT_CLASS_DEFAULT` is 0. -/
def NF_CT_EXPECT_CLASS_DEFAULT : Nat := 0

/-- `struct nf_conntrack_expect_policy` (lines 117-121). -/
structure ExpectPolicy where
  max_expected : Nat
  timeout : Nat
  name : String
deriving DecidableEq, Repr

/-- `ssdp_policy`, lines 117-121 of the source. -/
def ssdp_policy : ExpectPolicy :=
  { max_expected := 1, timeout := 1, name := "ssdp" }

/-- `skb_header_pointer(skb, protoff + sizeof(struct udphdr), len, buf)`:
yields the first `len` payload bytes, or `none` when the declared payload
is shorter than `len`.  It never reads past the declared payload length. -/
def skb_header_pointer (payload : List Nat) (len : Nat) : Option (List Nat) :=
  if len ≤ payload.length then some (payload.take len) else none

/-- The `for` loop of `ssdp_src_netmask` (lines 42-49): walk `ifa_list`,
and at the first entry whose `ifa_local` equals the source address take its
`ifa_mask` and `break`; `ret` stays 0 when no entry matches. -/
def ssdp_loop : List Ifaddr → Nat → Nat
  | [], _ => 0
  | a :: rest, src => if a.ifa_local = src then a.ifa_mask else ssdp_loop rest src

/-- The entries the loop of lines 42-49 actually visits: every entry up to
and including the first one whose `ifa_local` matches. -/
def ssdp_loop_visited : List Ifaddr → Nat → List Ifaddr
  | [], _ => []
  | a :: rest, src =>
      if a.ifa_local = src then [a] else a :: ssdp_loop_visited rest src

/-- `ssdp_src_netmask` (lines 30-58): look up the netmask configured for
the query's source address on the receiving device.  Returns the mask (0
signals failure) together with the warnings emitted. -/
def ssdp_src_netmask (skb : SkBuff) (orig : ConnTuple) : Nat × List Warn :=
  match skb.inDev with
  | none => (0, [Warn.noIpv4Addresses skb.devName])
  | some l =>
      let ret := ssdp_loop l orig.srcIp
      if ret = 0 then (ret, [Warn.srcAddrNotAssigned orig.srcIp skb.devName])
      else (ret, [])

/-- Reference-discipline events of `ssdp_src_netmask`: the `in_dev_get`
acquisition (line 37), each loop iteration over an `ifa_list` entry (lines
42-49), and the `in_dev_put` release (line 56). -/
inductive RefEv where
  | acquire
  | iterate (a : Ifaddr)
  | release
deriving DecidableEq, Repr

/-- `ssdp_src_netmask` instrumented with its reference-discipline event
trace.  When `in_dev_get` fails (returns `none`) the function returns at
line 39 without having acquired anything; otherwise the single exit point
passes through `in_dev_put` on line 56 after the loop. -/
def ssdp_src_netmask_trace (skb : SkBuff) (orig : ConnTuple) :
    Nat × List Warn × List RefEv :=
  match skb.inDev with
  | none => (0, [Warn.noIpv4Addresses skb.devName], [])
  | some l =>
      let ret := ssdp_loop l orig.srcIp
      let warns :=
        if ret = 0 then [Warn.srcAddrNotAssigned orig.srcIp skb.devName] else []
      (ret, warns,
        RefEv.acquire :: ((ssdp_loop_visited l orig.srcIp).map RefEv.iterate
          ++ [RefEv.release]))

/-- The observable outcome of one `ssdp_help` invocation: the verdict, the
expectations registered via `nf_ct_expect_related`, and the warnings. -/
structure HelpResult where
  verdict : Verdict
  expects : List NfExpect
  warns : List Warn
deriving DecidableEq, Repr

/-- `ssdp_help` (lines 60-115).  `allocOk` is whether
`nf_ct_expect_alloc` succeeds. -/
def ssdp_help (skb : SkBuff) (ct : NfConn) (allocOk : Bool) : HelpResult :=
  let tuple := ct.origTuple
  if tuple.dstIp ≠ SSDP_MCAST_ADDR then
    { verdict := .accept, expects := [], warns := [] }
  else
    match skb_header_pointer skb.payload SSDP_M_SEARCH_SIZE with
    | none => { verdict := .accept, expects := [], warns := [] }
    | some udpdata =>
        if udpdata ≠ SSDP_M_SEARCH then
          { verdict := .accept, expects := [], warns := [] }
        else
          let nmw := ssdp_src_netmask skb tuple
          if nmw.1 = 0 then
            { verdict := .drop, expects := [], warns := nmw.2 }
          else if allocOk = false then
            { verdict := .drop, expects := [],
              warns := nmw.2 ++ [Warn.memAllocFailure] }
          else
            let etuple := { ct.replyTuple with srcIp := ct.replyTuple.dstIp }
            let emask : ConnTuple :=
              { srcIp := nmw.1, srcPort := 0xffff, dstIp := 0, dstPort := 0,
                l3num := 0, protonum := 0 }
            { verdict := .accept,
              expects := [{ tuple := etuple, mask := emask, expectfn := none,
                            flags := 0, cls := NF_CT_EXPECT_CLASS_DEFAULT,
                            helper := none }],
              warns := nmw.2 }

/-- Sample interface address entry: 192.168.1.50/24 labelled eth0. -/
def sampleIfaddr : Ifaddr :=
  { ifa_local := 0xc0a80132, ifa_mask := 0xffffff00, ifa_label := "eth0" }

/-- Sample address entry for a different subnet: 10.0.0.1/24. -/
def sampleIfaddrOther : Ifaddr :=
  { ifa_local := 0x0a000001, ifa_mask := 0xffffff00, ifa_label := "eth0" }

/-- Sample address entry with the degenerate netmask 0.0.0.0 configured
for 192.168.1.50. -/
def sampleIfaddrZeroMask : Ifaddr :=
  { ifa_local := 0xc0a80132, ifa_mask := 0, ifa_label := "eth0" }

/-- Sample duplicate address entry: 192.168.1.50 again but with mask
255.255.0.0 and label eth0:1. -/
def sampleIfaddrDup : Ifaddr :=
  { ifa_local := 0xc0a80132, ifa_mask := 0xffff0000, ifa_label := "eth0:1" }

/-- Sample receiving skb: device eth0 configured with 192.168.1.50/24 and a
9-byte payload "M-SEARCH " (the pattern followed by a space). -/
def sampleSkb : SkBuff :=
  { devName := "eth0", inDev := some [sampleIfaddr],
    payload := SSDP_M_SEARCH ++ [0x20] }

/-- Sample skb on a device with no IPv4 configuration. -/
def sampleSkbNoDev : SkBuff :=
  { devName := "eth0", inDev := none, payload := SSDP_M_SEARCH ++ [0x20] }

/-- Sample skb on a device configured only with 10.0.0.1/24, which does
not contain the sample query's source address. -/
def sampleSkbOther : SkBuff :=
  { devName := "eth0", inDev := some [sampleIfaddrOther],
    payload := SSDP_M_SEARCH ++ [0x20] }

/-- Sample skb on a device whose matching entry carries netmask 0.0.0.0. -/
def sampleSkbZeroMask : SkBuff :=
  { devName := "eth0", inDev := some [sampleIfaddrZeroMask],
    payload := SSDP_M_SEARCH ++ [0x20] }

/-- Sample skb whose address list holds a non-matching entry, then the
matching 192.168.1.50/24 entry, then a duplicate 192.168.1.50 entry with a
different mask. -/
def sampleSkbMulti : SkBuff :=
  { devName := "eth0",
    inDev := some ([sampleIfaddrOther] ++ sampleIfaddr :: [sampleIfaddrDup]),
    payload := SSDP_M_SEARCH ++ [0x20] }

/-- Sample conntrack entry: original 192.168.1.50:5000 →
239.255.255.250:1900 over UDP, reply tuple the engine's inversion. -/
def sampleCt : NfConn :=
  { origTuple := { srcIp := 0xc0a80132, srcPort := 5000,
                   dstIp := 0xeffffffa, dstPort := 1900,
                   l3num := 2, protonum := 17 },
    replyTuple := { srcIp := 0xeffffffa, srcPort := 1900,
                    dstIp := 0xc0a80132, dstPort := 5000,
                    l3num := 2, protonum := 17 } }

/-- The loop result equals the `ifa_mask` of the first matching entry of
`ifa_list`, and 0 when there is none. -/
theorem ssdp_loop_eq_find (l : List Ifaddr) (src : Nat) :
    ssdp_loop l src =
      ((l.find? (fun a => a.ifa_local == src)).map Ifaddr.ifa_mask).getD 0 := by
  induction l with
  | nil => rfl
  | cons a rest ih =>
      by_cases h : a.ifa_local = src
      · simp [ssdp_loop, List.find?, h]
      · have hb : (a.ifa_local == src) = false := by simp [h]
        simp [ssdp_loop, List.find?, h, hb, ih]

/-- On the `some` branch the first component of `ssdp_src_netmask` is the
loop result. -/
theorem ssdp_src_netmask_fst (skb : SkBuff) (orig : ConnTuple)
    (l : List Ifaddr) (hdev : skb.inDev = some l) :
    (ssdp_src_netmask skb orig).1 = ssdp_loop l orig.srcIp := by
  unfold ssdp_src_netmask
  rw [hdev]
  by_cases h : ssdp_loop l orig.srcIp = 0 <;> simp [h]

/-- When the resolved mask is nonzero, no warning is emitted. -/
theorem ssdp_src_netmask_warns_of_ne_zero (skb : SkBuff) (orig : ConnTuple)
    (h : (ssdp_src_netmask skb orig).1 ≠ 0) :
    (ssdp_src_netmask skb orig).2 = [] := by
  unfold ssdp_src_netmask at *
  cases hdev : skb.inDev with
  | none => rw [hdev] at h; simp at h
  | some l =>
      rw [hdev] at h
      by_cases h0 : ssdp_loop l orig.srcIp = 0
      · simp [h0] at h
      · simp [h0]

/-- Exit path of lines 76-79: non-multicast destination. -/
theorem ssdp_help_of_dst_ne (skb : SkBuff) (ct : NfConn) (allocOk : Bool)
    (hdst : ct.origTuple.dstIp ≠ SSDP_MCAST_ADDR) :
    ssdp_help skb ct allocOk =
      { verdict := .accept, expects := [], warns := [] } := by
  simp [ssdp_help, hdst]

/-- Exit path of lines 83-86: payload shorter than 8 bytes, so
`skb_header_pointer` fails. -/
theorem ssdp_help_of_short_payload (skb : SkBuff) (ct : NfConn)
    (allocOk : Bool) (h : skb.payload.length < 8) :
    ssdp_help skb ct allocOk =
      { verdict := .accept, expects := [], warns := [] } := by
  by_cases hdst : ct.origTuple.dstIp = SSDP_MCAST_ADDR
  · unfold ssdp_help
    rw [if_neg (by simp [hdst])]
    simp [skb_header_pointer, SSDP_M_SEARCH_SIZE, Nat.not_le.mpr h]
  · simp [ssdp_help, hdst]

/-- Exit path of lines 88-91: first 8 payload bytes differ from
`"M-SEARCH"`. -/
theorem ssdp_help_of_mismatch (skb : SkBuff) (ct : NfConn) (allocOk : Bool)
    (hlen : 8 ≤ skb.payload.length)
    (hm : skb.payload.take 8 ≠ SSDP_M_SEARCH) :
    ssdp_help skb ct allocOk =
      { verdict := .accept, expects := [], warns := [] } := by
  by_cases hdst : ct.origTuple.dstIp = SSDP_MCAST_ADDR
  · unfold ssdp_help
    rw [if_neg (by simp [hdst])]
    simp only [skb_header_pointer, SSDP_M_SEARCH_SIZE, if_pos hlen]
    rw [if_pos (by simp [hm])]
  · simp [ssdp_help, hdst]

/-- Exit path of lines 93-94: matched query but the netmask resolution
returned the 0 failure sentinel. -/
theorem ssdp_help_of_netmask_zero (skb : SkBuff) (ct : NfConn)
    (allocOk : Bool)
    (hdst : ct.origTuple.dstIp = SSDP_MCAST_ADDR)
    (hlen : 8 ≤ skb.payload.length)
    (hpat : skb.payload.take 8 = SSDP_M_SEARCH)
    (h0 : (ssdp_src_netmask skb ct.origTuple).1 = 0) :
    ssdp_help skb ct allocOk =
      { verdict := .drop, expects := [],
        warns := (ssdp_src_netmask skb ct.origTuple).2 } := by
  unfold ssdp_help
  rw [if_neg (by simp [hdst])]
  simp only [skb_header_pointer, SSDP_M_SEARCH_SIZE, if_pos hlen, hpat]
  rw [if_neg (by simp)]
  simp [h0]

/-- Exit path of lines 96-99: matched query, resolved netmask, but
`nf_ct_expect_alloc` fails. -/
theorem ssdp_help_of_alloc_fail (skb : SkBuff) (ct : NfConn)
    (hdst : ct.origTuple.dstIp = SSDP_MCAST_ADDR)
    (hlen : 8 ≤ skb.payload.length)
    (hpat : skb.payload.take 8 = SSDP_M_SEARCH)
    (hnm : (ssdp_src_netmask skb ct.origTuple).1 ≠ 0) :
    ssdp_help skb ct false =
      { verdict := .drop, expects := [],
        warns := (ssdp_src_netmask skb ct.origTuple).2
                   ++ [Warn.memAllocFailure] } := by
  unfold ssdp_help
  rw [if_neg (by simp [hdst])]
  simp only [skb_header_pointer, SSDP_M_SEARCH_SIZE, if_pos hlen, hpat]
  rw [if_neg (by simp)]
  simp [hnm]

/-- The full success path of `ssdp_help` (lines 96-114): multicast
destination, 8-byte payload prefix equal to `"M-SEARCH"`, nonzero resolved
netmask, successful allocation. -/
theorem ssdp_help_success_path (skb : SkBuff) (ct : NfConn)
    (hdst : ct.origTuple.dstIp = SSDP_MCAST_ADDR)
    (hlen : 8 ≤ skb.payload.length)
    (hpat : skb.payload.take 8 = SSDP_M_SEARCH)
    (hnm : (ssdp_src_netmask skb ct.origTuple).1 ≠ 0) :
    ssdp_help skb ct true =
      { verdict := .accept,
        expects := [{ tuple := { ct.replyTuple with srcIp := ct.replyTuple.dstIp },
                      mask := { srcIp := (ssdp_src_netmask skb ct.origTuple).1,
                                srcPort := 0xffff, dstIp := 0, dstPort := 0,
                                l3num := 0, protonum := 0 },
                      expectfn := none, flags := 0,
                      cls := NF_CT_EXPECT_CLASS_DEFAULT, helper := none }],
        warns := [] } := by
  have hw := ssdp_src_netmask_warns_of_ne_zero skb ct.origTuple hnm
  unfold ssdp_help
  rw [if_neg (by simp [hdst])]
  simp only [skb_header_pointer, SSDP_M_SEARCH_SIZE, if_pos hlen, hpat]
  rw [if_neg (by simp)]
  simp only [if_neg hnm]
  simp [hw]

/-- C3: a packet whose original destination address is not 239.255.255.250
is accepted with no expectation registered and no other effect. -/
theorem ssdp_help_non_multicast_accepts (skb : SkBuff) (ct : NfConn)
    (allocOk : Bool) (h : ct.origTuple.dstIp ≠ SSDP_MCAST_ADDR) :
    ssdp_help skb ct allocOk =
      { verdict := .accept, expects := [], warns := [] } := by
  simp [ssdp_help, h]

/-- C3 witness: a concrete unicast-destination packet is accepted with no
expectation. -/
theorem ssdp_help_non_multicast_accepts_witness :
    ssdp_help
      { devName := "eth0", inDev := some [], payload := [] }
      { origTuple := { srcIp := 0xc0a80132, srcPort := 5000,
                       dstIp := 0xc0a80101, dstPort := 1900,
                       l3num := 2, protonum := 17 },
        replyTuple := { srcIp := 0xc0a80101, srcPort := 1900,
                        dstIp := 0xc0a80132, dstPort := 5000,
                        l3num := 2, protonum := 17 } }
      true
    = { verdict := .accept, expects := [], warns := [] } :=
  ssdp_help_non_multicast_accepts _ _ _ (by decide)

/-- The loop yields the failure value 0 when no entry's `ifa_local`
matches the source address. -/
theorem ssdp_loop_zero_of_no_match (l : List Ifaddr) (src : Nat)
    (h : ∀ x ∈ l, x.ifa_local ≠ src) : ssdp_loop l src = 0 := by
  induction l with
  | nil => rfl
  | cons a rest ih =>
      have ha : a.ifa_local ≠ src := h a (by simp)
      simp only [ssdp_loop, if_neg ha]
      exact ih fun x hx => h x (by simp [hx])

/-- The loop stops at the first matching entry: entries after it do not
influence the result. -/
theorem ssdp_loop_append_first (l1 : List Ifaddr) (a : Ifaddr)
    (rest : List Ifaddr) (src : Nat)
    (hno : ∀ x ∈ l1, x.ifa_local ≠ src) (ha : a.ifa_local = src) :
    ssdp_loop (l1 ++ a :: rest) src = a.ifa_mask := by
  induction l1 with
  | nil => simp [ssdp_loop, ha]
  | cons b l1' ih =>
      have hb : b.ifa_local ≠ src := hno b (by simp)
      simp only [List.cons_append, ssdp_loop, if_neg hb]
      exact ih fun x hx => hno x (by simp [hx])

/-- When resolution fails (mask 0), at least one warning is emitted. -/
theorem ssdp_src_netmask_warns_ne_nil_of_zero (skb : SkBuff)
    (orig : ConnTuple) (h : (ssdp_src_netmask skb orig).1 = 0) :
    (ssdp_src_netmask skb orig).2 ≠ [] := by
  unfold ssdp_src_netmask at *
  cases hdev : skb.inDev with
  | none => simp
  | some l =>
      rw [hdev] at h
      by_cases h0 : ssdp_loop l orig.srcIp = 0
      · simp [h0]
      · simp [h0] at h

/-- `ssdp_src_netmask` reads the skb only through its device name and
address list. -/
theorem ssdp_src_netmask_congr (skb1 skb2 : SkBuff) (orig : ConnTuple)
    (hname : skb1.devName = skb2.devName)
    (hdev : skb1.inDev = skb2.inDev) :
    ssdp_src_netmask skb1 orig = ssdp_src_netmask skb2 orig := by
  unfold ssdp_src_netmask
  rw [hname, hdev]

/-- `skb_header_pointer` at length 8 depends on the payload only through
its first 8 bytes. -/
theorem skb_header_pointer_take (p1 p2 : List Nat)
    (h : p1.take 8 = p2.take 8) :
    skb_header_pointer p1 8 = skb_header_pointer p2 8 := by
  have hm : min 8 p1.length = min 8 p2.length := by
    have := congrArg List.length h
    simpa [List.length_take] using this
  by_cases hl : 8 ≤ p1.length
  · have hl2 : 8 ≤ p2.length := by
      rw [Nat.min_def, Nat.min_def] at hm
      split_ifs at hm <;> omega
    simp [skb_header_pointer, hl, hl2, h]
  · have hl2 : ¬ 8 ≤ p2.length := by
      rw [Nat.min_def, Nat.min_def] at hm
      split_ifs at hm <;> omega
    simp [skb_header_pointer, hl, hl2]

/-- `ssdp_help` reads the skb only through its device name, address list
and the first 8 payload bytes. -/
theorem ssdp_help_congr (skb1 skb2 : SkBuff) (ct : NfConn) (allocOk : Bool)
    (hname : skb1.devName = skb2.devName)
    (hdev : skb1.inDev = skb2.inDev)
    (htake : skb1.payload.take 8 = skb2.payload.take 8) :
    ssdp_help skb1 ct allocOk = ssdp_help skb2 ct allocOk := by
  have hsp : skb_header_pointer skb1.payload SSDP_M_SEARCH_SIZE
      = skb_header_pointer skb2.payload SSDP_M_SEARCH_SIZE := by
    simp only [SSDP_M_SEARCH_SIZE]
    exact skb_header_pointer_take _ _ htake
  have hsnm : ssdp_src_netmask skb1 ct.origTuple
      = ssdp_src_netmask skb2 ct.origTuple :=
    ssdp_src_netmask_congr skb1 skb2 ct.origTuple hname hdev
  simp only [ssdp_help, hsp, hsnm]

/-- C1: a well-formed M-SEARCH query from source `S` on an interface whose
address list resolves `S` to a nonzero mask `M` is accepted, and exactly
one expectation is registered, with source-address mask `M`, source-port
mask `0xffff` (all ones), under a policy with `max_expected = 1` and
`timeout = 1`. -/
theorem ssdp_help_query_registers_expectation (skb : SkBuff) (ct : NfConn)
    (l : List Ifaddr) (a : Ifaddr) (M : Nat)
    (hdst : ct.origTuple.dstIp = SSDP_MCAST_ADDR)
    (hlen : 8 ≤ skb.payload.length)
    (hpat : skb.payload.take 8 = SSDP_M_SEARCH)
    (hdev : skb.inDev = some l)
    (hfind : l.find? (fun x => x.ifa_local == ct.origTuple.srcIp) = some a)
    (hmask : a.ifa_mask = M) (hM : M ≠ 0) :
    (ssdp_help skb ct true).verdict = .accept ∧
    (∃ e, (ssdp_help skb ct true).expects = [e] ∧
      e.mask.srcIp = M ∧ e.mask.srcPort = 0xffff) ∧
    ssdp_policy.max_expected = 1 ∧ ssdp_policy.timeout = 1 := by
  have hnm1 : (ssdp_src_netmask skb ct.origTuple).1 = M := by
    rw [ssdp_src_netmask_fst skb ct.origTuple l hdev, ssdp_loop_eq_find, hfind]
    simp [hmask]
  have hnm : (ssdp_src_netmask skb ct.origTuple).1 ≠ 0 := by
    rw [hnm1]; exact hM
  rw [ssdp_help_success_path skb ct hdst hlen hpat hnm]
  refine ⟨rfl, ⟨_, rfl, ?_, rfl⟩, rfl, rfl⟩
  simpa using hnm1

/-- C1 witness: the spec's scenario — query from 192.168.1.50 to
239.255.255.250:1900, interface configured 192.168.1.50/24 — yields ACCEPT
and one expectation with address mask 255.255.255.0 and port mask all
ones. -/
theorem ssdp_help_query_registers_expectation_witness :
    (ssdp_help sampleSkb sampleCt true).verdict = .accept ∧
    (∃ e, (ssdp_help sampleSkb sampleCt true).expects = [e] ∧
      e.mask.srcIp = 0xffffff00 ∧ e.mask.srcPort = 0xffff) ∧
    ssdp_policy.max_expected = 1 ∧ ssdp_policy.timeout = 1 :=
  ssdp_help_query_registers_expectation sampleSkb sampleCt [sampleIfaddr]
    sampleIfaddr 0xffffff00 (by decide) (by decide) (by decide) (by decide)
    (by decide) (by decide) (by decide)

/-- C2 counterexample: on the sample success path the registered
expectation's tuple source address is 192.168.1.50 — the reply tuple's
destination (the original *source*) — and not the original destination
address (which on this path is necessarily 239.255.255.250), so the
expectation tuple differs from the reply tuple with its source address
overwritten by the original destination address. -/
theorem ssdp_help_expect_src_not_orig_dst :
    ((ssdp_help sampleSkb sampleCt true).expects.map fun e => e.tuple.srcIp)
      = [0xc0a80132] ∧
    sampleCt.origTuple.dstIp = 0xeffffffa ∧
    ((ssdp_help sampleSkb sampleCt true).expects.map fun e => e.tuple) ≠
      [{ sampleCt.replyTuple with srcIp := sampleCt.origTuple.dstIp }] := by
  decide

/-- C2 amended: on the success path, the registered expectation's tuple is
the reply-direction tuple with its source address field overwritten with
the reply tuple's *destination* address (under the engine's tuple
inversion, the original source address — the querier), so the expectation
anticipates a reply addressed like the querier's own subnet, not one from
the original destination (the multicast group address). -/
theorem ssdp_help_expect_tuple_from_reply_dst (skb : SkBuff) (ct : NfConn)
    (hdst : ct.origTuple.dstIp = SSDP_MCAST_ADDR)
    (hlen : 8 ≤ skb.payload.length)
    (hpat : skb.payload.take 8 = SSDP_M_SEARCH)
    (hnm : (ssdp_src_netmask skb ct.origTuple).1 ≠ 0) :
    ∃ e, (ssdp_help skb ct true).expects = [e] ∧
      e.tuple = { ct.replyTuple with srcIp := ct.replyTuple.dstIp } := by
  rw [ssdp_help_success_path skb ct hdst hlen hpat hnm]
  exact ⟨_, rfl, rfl⟩

/-- C2 amended witness: concrete success path with the reply tuple being
the inversion of the original tuple. -/
theorem ssdp_help_expect_tuple_from_reply_dst_witness :
    ∃ e, (ssdp_help sampleSkb sampleCt true).expects = [e] ∧
      e.tuple = { sampleCt.replyTuple with srcIp := sampleCt.replyTuple.dstIp } :=
  ssdp_help_expect_tuple_from_reply_dst sampleSkb sampleCt (by decide)
    (by decide) (by decide) (by decide)

/-- C10: in every registered expectation, every mask field other than the
source address and source port is zero: destination address, destination
port, layer-3 and layer-4 protocol numbers are all unconstrained. -/
theorem ssdp_help_mask_other_fields_zero (skb : SkBuff) (ct : NfConn)
    (allocOk : Bool) (e : NfExpect)
    (he : e ∈ (ssdp_help skb ct allocOk).expects) :
    e.mask.dstIp = 0 ∧ e.mask.dstPort = 0 ∧
    e.mask.l3num = 0 ∧ e.mask.protonum = 0 := by
  by_cases hdst : ct.origTuple.dstIp = SSDP_MCAST_ADDR
  · by_cases hlen : 8 ≤ skb.payload.length
    · by_cases hpat : skb.payload.take 8 = SSDP_M_SEARCH
      · by_cases h0 : (ssdp_src_netmask skb ct.origTuple).1 = 0
        · rw [ssdp_help_of_netmask_zero skb ct allocOk hdst hlen hpat h0] at he
          simp at he
        · cases allocOk with
          | false =>
              rw [ssdp_help_of_alloc_fail skb ct hdst hlen hpat h0] at he
              simp at he
          | true =>
              rw [ssdp_help_success_path skb ct hdst hlen hpat h0] at he
              simp at he
              subst he
              exact ⟨rfl, rfl, rfl, rfl⟩
      · rw [ssdp_help_of_mismatch skb ct allocOk hlen hpat] at he
        simp at he
    · rw [ssdp_help_of_short_payload skb ct allocOk (Nat.lt_of_not_le hlen)] at he
      simp at he
  · rw [ssdp_help_of_dst_ne skb ct allocOk hdst] at he
    simp at he

/-- C10 witness: the sample success path's single expectation has zero in
every mask field except source address and source port. -/
theorem ssdp_help_mask_other_fields_zero_witness :
    ({ tuple := { sampleCt.replyTuple with srcIp := sampleCt.replyTuple.dstIp },
       mask := { srcIp := 0xffffff00, srcPort := 0xffff, dstIp := 0,
                 dstPort := 0, l3num := 0, protonum := 0 },
       expectfn := none, flags := 0, cls := NF_CT_EXPECT_CLASS_DEFAULT,
       helper := none } : NfExpect).mask.dstIp = 0 ∧
    ({ tuple := { sampleCt.replyTuple with srcIp := sampleCt.replyTuple.dstIp },
       mask := { srcIp := 0xffffff00, srcPort := 0xffff, dstIp := 0,
                 dstPort := 0, l3num := 0, protonum := 0 },
       expectfn := none, flags := 0, cls := NF_CT_EXPECT_CLASS_DEFAULT,
       helper := none } : NfExpect).mask.dstPort = 0 ∧
    ({ tuple := { sampleCt.replyTuple with srcIp := sampleCt.replyTuple.dstIp },
       mask := { srcIp := 0xffffff00, srcPort := 0xffff, dstIp := 0,
                 dstPort := 0, l3num := 0, protonum := 0 },
       expectfn := none, flags := 0, cls := NF_CT_EXPECT_CLASS_DEFAULT,
       helper := none } : NfExpect).mask.l3num = 0 ∧
    ({ tuple := { sampleCt.replyTuple with srcIp := sampleCt.replyTuple.dstIp },
       mask := { srcIp := 0xffffff00, srcPort := 0xffff, dstIp := 0,
                 dstPort := 0, l3num := 0, protonum := 0 },
       expectfn := none, flags := 0, cls := NF_CT_EXPECT_CLASS_DEFAULT,
       helper := none } : NfExpect).mask.protonum = 0 :=
  ssdp_help_mask_other_fields_zero sampleSkb sampleCt true _ (by decide)

/-- C4: payloads shorter than 8 bytes, and payloads whose first 8 bytes
differ from `"M-SEARCH"`, are accepted with no expectation; the match
depends on the payload only through its first 8 bytes (so it never reads
past the declared payload length); and a matched 8-byte prefix does
proceed past the matcher. -/
theorem ssdp_help_payload_safety :
    (∀ (skb : SkBuff) (ct : NfConn) (allocOk : Bool),
      skb.payload.length < 8 →
      ssdp_help skb ct allocOk =
        { verdict := .accept, expects := [], warns := [] }) ∧
    (∀ (skb : SkBuff) (ct : NfConn) (allocOk : Bool),
      8 ≤ skb.payload.length → skb.payload.take 8 ≠ SSDP_M_SEARCH →
      ssdp_help skb ct allocOk =
        { verdict := .accept, expects := [], warns := [] }) ∧
    (∀ (skb1 skb2 : SkBuff) (ct : NfConn) (allocOk : Bool),
      skb1.devName = skb2.devName → skb1.inDev = skb2.inDev →
      skb1.payload.take 8 = skb2.payload.take 8 →
      ssdp_help skb1 ct allocOk = ssdp_help skb2 ct allocOk) ∧
    (∀ (skb : SkBuff) (ct : NfConn) (allocOk : Bool),
      ct.origTuple.dstIp = SSDP_MCAST_ADDR →
      8 ≤ skb.payload.length → skb.payload.take 8 = SSDP_M_SEARCH →
      (ssdp_help skb ct allocOk).warns ≠ [] ∨
        (ssdp_help skb ct allocOk).expects ≠ []) := by
  refine ⟨?_, ?_, ?_, ?_⟩
  · exact fun skb ct allocOk h => ssdp_help_of_short_payload skb ct allocOk h
  · exact fun skb ct allocOk hlen hm => ssdp_help_of_mismatch skb ct allocOk hlen hm
  · exact fun skb1 skb2 ct allocOk h1 h2 h3 => ssdp_help_congr skb1 skb2 ct allocOk h1 h2 h3
  · intro skb ct allocOk hdst hlen hpat
    by_cases h0 : (ssdp_src_netmask skb ct.origTuple).1 = 0
    · left
      rw [ssdp_help_of_netmask_zero skb ct allocOk hdst hlen hpat h0]
      exact ssdp_src_netmask_warns_ne_nil_of_zero skb ct.origTuple h0
    · cases allocOk with
      | false =>
          left
          rw [ssdp_help_of_alloc_fail skb ct hdst hlen hpat h0]
          simp
      | true =>
          right
          rw [ssdp_help_success_path skb ct hdst hlen hpat h0]
          simp

/-- C4 witness: the 7-byte payload "M-SEARC" is accepted with no
expectation; a payload agreeing with the sample on its first 8 bytes but
longer gives the same outcome as the sample; and the 9-byte "M-SEARCH "
sample payload passes the matcher (it registers an expectation). -/
theorem ssdp_help_payload_safety_witness :
    ssdp_help { devName := "eth0", inDev := some [sampleIfaddr],
                payload := [0x4d, 0x2d, 0x53, 0x45, 0x41, 0x52, 0x43] }
        sampleCt true
      = { verdict := .accept, expects := [], warns := [] } ∧
    ssdp_help { devName := "eth0", inDev := some [sampleIfaddr],
                payload := SSDP_M_SEARCH ++ [0x20, 0x2a] }
        sampleCt true
      = ssdp_help sampleSkb sampleCt true ∧
    ((ssdp_help sampleSkb sampleCt true).warns ≠ [] ∨
      (ssdp_help sampleSkb sampleCt true).expects ≠ []) :=
  ⟨ssdp_help_payload_safety.1 _ sampleCt true (by decide),
   ssdp_help_payload_safety.2.2.1 _ sampleSkb sampleCt true (by decide)
     (by decide) (by decide),
   ssdp_help_payload_safety.2.2.2 sampleSkb sampleCt true (by decide)
     (by decide) (by decide)⟩

/-- C5: a matched M-SEARCH query whose source address cannot be resolved
on the receiving interface is dropped with no expectation: when the device
has no IPv4 configuration the `noIpv4Addresses` warning is emitted, when
no configured address equals the source the `srcAddrNotAssigned` warning
is emitted, and the two diagnostics are distinct. -/
theorem ssdp_help_unresolved_src_drops (skb : SkBuff) (ct : NfConn)
    (allocOk : Bool)
    (hdst : ct.origTuple.dstIp = SSDP_MCAST_ADDR)
    (hlen : 8 ≤ skb.payload.length)
    (hpat : skb.payload.take 8 = SSDP_M_SEARCH) :
    (skb.inDev = none →
      ssdp_help skb ct allocOk =
        { verdict := .drop, expects := [],
          warns := [Warn.noIpv4Addresses skb.devName] }) ∧
    (∀ l, skb.inDev = some l →
      (∀ x ∈ l, x.ifa_local ≠ ct.origTuple.srcIp) →
      ssdp_help skb ct allocOk =
        { verdict := .drop, expects := [],
          warns := [Warn.srcAddrNotAssigned ct.origTuple.srcIp skb.devName] }) ∧
    (∀ d s d2, Warn.noIpv4Addresses d ≠ Warn.srcAddrNotAssigned s d2) := by
  refine ⟨?_, ?_, fun d s d2 => by simp⟩
  · intro hdev
    have hsn : ssdp_src_netmask skb ct.origTuple =
        (0, [Warn.noIpv4Addresses skb.devName]) := by
      unfold ssdp_src_netmask
      rw [hdev]
    have h0 : (ssdp_src_netmask skb ct.origTuple).1 = 0 := by rw [hsn]
    rw [ssdp_help_of_netmask_zero skb ct allocOk hdst hlen hpat h0, hsn]
  · intro l hdev hno
    have hl0 : ssdp_loop l ct.origTuple.srcIp = 0 :=
      ssdp_loop_zero_of_no_match l ct.origTuple.srcIp hno
    have hsn : ssdp_src_netmask skb ct.origTuple =
        (0, [Warn.srcAddrNotAssigned ct.origTuple.srcIp skb.devName]) := by
      unfold ssdp_src_netmask
      rw [hdev]
      simp [hl0]
    have h0 : (ssdp_src_netmask skb ct.origTuple).1 = 0 := by rw [hsn]
    rw [ssdp_help_of_netmask_zero skb ct allocOk hdst hlen hpat h0, hsn]

/-- C5 witness: the sample query on a device with no IPv4 configuration is
dropped with the no-addresses warning; the same query on a device
configured only with 10.0.0.1/24 is dropped with the
address-not-assigned warning. -/
theorem ssdp_help_unresolved_src_drops_witness :
    ssdp_help sampleSkbNoDev sampleCt true =
      { verdict := .drop, expects := [],
        warns := [Warn.noIpv4Addresses "eth0"] } ∧
    ssdp_help sampleSkbOther sampleCt true =
      { verdict := .drop, expects := [],
        warns := [Warn.srcAddrNotAssigned 0xc0a80132 "eth0"] } :=
  ⟨(ssdp_help_unresolved_src_drops sampleSkbNoDev sampleCt true (by decide)
      (by decide) (by decide)).1 rfl,
   (ssdp_help_unresolved_src_drops sampleSkbOther sampleCt true (by decide)
      (by decide) (by decide)).2.1 [sampleIfaddrOther] rfl (by decide)⟩

/-- C6: a configured netmask of 0.0.0.0 on the entry matching the query's
source address is treated as resolution failure: the packet is dropped
with no expectation and the address-not-assigned warning, and the helper's
output is identical to its output on a device where the source address is
not configured at all. -/
theorem ssdp_help_zero_mask_is_failure (skb : SkBuff) (ct : NfConn)
    (allocOk : Bool) (l : List Ifaddr) (a : Ifaddr)
    (hdst : ct.origTuple.dstIp = SSDP_MCAST_ADDR)
    (hlen : 8 ≤ skb.payload.length)
    (hpat : skb.payload.take 8 = SSDP_M_SEARCH)
    (hdev : skb.inDev = some l)
    (hfind : l.find? (fun x => x.ifa_local == ct.origTuple.srcIp) = some a)
    (hzero : a.ifa_mask = 0) :
    ssdp_help skb ct allocOk =
      { verdict := .drop, expects := [],
        warns := [Warn.srcAddrNotAssigned ct.origTuple.srcIp skb.devName] } ∧
    (∀ l2, (∀ x ∈ l2, x.ifa_local ≠ ct.origTuple.srcIp) →
      ssdp_help { skb with inDev := some l2 } ct allocOk =
        ssdp_help skb ct allocOk) := by
  have hl0 : ssdp_loop l ct.origTuple.srcIp = 0 := by
    rw [ssdp_loop_eq_find, hfind]
    simp [hzero]
  have hsn : ssdp_src_netmask skb ct.origTuple =
      (0, [Warn.srcAddrNotAssigned ct.origTuple.srcIp skb.devName]) := by
    unfold ssdp_src_netmask
    rw [hdev]
    simp [hl0]
  have h0 : (ssdp_src_netmask skb ct.origTuple).1 = 0 := by rw [hsn]
  have hmain : ssdp_help skb ct allocOk =
      { verdict := .drop, expects := [],
        warns := [Warn.srcAddrNotAssigned ct.origTuple.srcIp skb.devName] } := by
    rw [ssdp_help_of_netmask_zero skb ct allocOk hdst hlen hpat h0, hsn]
  refine ⟨hmain, ?_⟩
  intro l2 hno
  have hl02 : ssdp_loop l2 ct.origTuple.srcIp = 0 :=
    ssdp_loop_zero_of_no_match l2 ct.origTuple.srcIp hno
  have hsn2 : ssdp_src_netmask { skb with inDev := some l2 } ct.origTuple =
      (0, [Warn.srcAddrNotAssigned ct.origTuple.srcIp skb.devName]) := by
    unfold ssdp_src_netmask
    simp [hl02]
  have h02 : (ssdp_src_netmask { skb with inDev := some l2 } ct.origTuple).1
      = 0 := by rw [hsn2]
  rw [ssdp_help_of_netmask_zero { skb with inDev := some l2 } ct allocOk hdst
    hlen hpat h02, hsn2, hmain]

/-- C6 witness: the sample query on a device whose matching entry carries
netmask 0.0.0.0 is dropped with the address-not-assigned warning, and its
outcome equals the outcome on a device configured only with an unrelated
address. -/
theorem ssdp_help_zero_mask_is_failure_witness :
    ssdp_help sampleSkbZeroMask sampleCt true =
      { verdict := .drop, expects := [],
        warns := [Warn.srcAddrNotAssigned 0xc0a80132 "eth0"] } ∧
    ssdp_help { sampleSkbZeroMask with inDev := some [sampleIfaddrOther] }
        sampleCt true
      = ssdp_help sampleSkbZeroMask sampleCt true :=
  ⟨(ssdp_help_zero_mask_is_failure sampleSkbZeroMask sampleCt true
      [sampleIfaddrZeroMask] sampleIfaddrZeroMask (by decide) (by decide)
      (by decide) rfl (by decide) (by decide)).1,
   (ssdp_help_zero_mask_is_failure sampleSkbZeroMask sampleCt true
      [sampleIfaddrZeroMask] sampleIfaddrZeroMask (by decide) (by decide)
      (by decide) rfl (by decide) (by decide)).2 [sampleIfaddrOther]
      (by decide)⟩

/-- C7: after successful classification, payload match and subnet
resolution, an allocation failure drops the packet with the
memory-allocation warning and no expectation; and a DROP verdict can only
arise from subnet-resolution failure or allocation failure. -/
theorem ssdp_help_alloc_fail_diagnoses (skb : SkBuff) (ct : NfConn)
    (hdst : ct.origTuple.dstIp = SSDP_MCAST_ADDR)
    (hlen : 8 ≤ skb.payload.length)
    (hpat : skb.payload.take 8 = SSDP_M_SEARCH)
    (hnm : (ssdp_src_netmask skb ct.origTuple).1 ≠ 0) :
    ssdp_help skb ct false =
      { verdict := .drop, expects := [],
        warns := [Warn.memAllocFailure] } ∧
    (∀ (skb2 : SkBuff) (ct2 : NfConn) (allocOk : Bool),
      (ssdp_help skb2 ct2 allocOk).verdict = .drop →
      (ssdp_src_netmask skb2 ct2.origTuple).1 = 0 ∨ allocOk = false) := by
  constructor
  · rw [ssdp_help_of_alloc_fail skb ct hdst hlen hpat hnm,
      ssdp_src_netmask_warns_of_ne_zero skb ct.origTuple hnm]
    rfl
  · intro skb2 ct2 allocOk hv
    by_cases hdst2 : ct2.origTuple.dstIp = SSDP_MCAST_ADDR
    · by_cases hlen2 : 8 ≤ skb2.payload.length
      · by_cases hpat2 : skb2.payload.take 8 = SSDP_M_SEARCH
        · by_cases h02 : (ssdp_src_netmask skb2 ct2.origTuple).1 = 0
          · exact Or.inl h02
          · cases allocOk with
            | false => exact Or.inr rfl
            | true =>
                rw [ssdp_help_success_path skb2 ct2 hdst2 hlen2 hpat2 h02] at hv
                simp at hv
        · rw [ssdp_help_of_mismatch skb2 ct2 allocOk hlen2 hpat2] at hv
          simp at hv
      · rw [ssdp_help_of_short_payload skb2 ct2 allocOk
          (Nat.lt_of_not_le hlen2)] at hv
        simp at hv
    · rw [ssdp_help_of_dst_ne skb2 ct2 allocOk hdst2] at hv
      simp at hv

/-- C7 witness: the sample query with a failing allocation is dropped with
the memory-allocation warning, and a concrete dropped packet (device with
no IPv4 configuration, allocation fine) falls under resolution failure. -/
theorem ssdp_help_alloc_fail_diagnoses_witness :
    ssdp_help sampleSkb sampleCt false =
      { verdict := .drop, expects := [],
        warns := [Warn.memAllocFailure] } ∧
    ((ssdp_src_netmask sampleSkbNoDev sampleCt.origTuple).1 = 0 ∨
      true = false) :=
  ⟨(ssdp_help_alloc_fail_diagnoses sampleSkb sampleCt (by decide) (by decide)
      (by decide) (by decide)).1,
   (ssdp_help_alloc_fail_diagnoses sampleSkb sampleCt (by decide) (by decide)
      (by decide) (by decide)).2 sampleSkbNoDev sampleCt true (by decide)⟩

/-- Mapping `ifa_list` entries to iteration events yields no acquire
event. -/
theorem count_acquire_map_iterate (vs : List Ifaddr) :
    (vs.map RefEv.iterate).count RefEv.acquire = 0 := by
  induction vs with
  | nil => rfl
  | cons a rest ih => simp [List.count_cons, ih]

/-- Mapping `ifa_list` entries to iteration events yields no release
event. -/
theorem count_release_map_iterate (vs : List Ifaddr) :
    (vs.map RefEv.iterate).count RefEv.release = 0 := by
  induction vs with
  | nil => rfl
  | cons a rest ih => simp [List.count_cons, ih]

/-- C8: whenever `in_dev_get` succeeds, the resolver's event trace starts
with the acquisition, contains exactly one acquisition and exactly one
release, ends with the release (so no iteration happens after it), and the
traced run computes the same mask and warnings as `ssdp_src_netmask`. -/
theorem ssdp_src_netmask_ref_discipline (skb : SkBuff) (orig : ConnTuple)
    (l : List Ifaddr) (hdev : skb.inDev = some l) :
    ((ssdp_src_netmask_trace skb orig).2.2).head? = some RefEv.acquire ∧
    ((ssdp_src_netmask_trace skb orig).2.2).count RefEv.acquire = 1 ∧
    ((ssdp_src_netmask_trace skb orig).2.2).count RefEv.release = 1 ∧
    ((ssdp_src_netmask_trace skb orig).2.2).getLast? = some RefEv.release ∧
    (ssdp_src_netmask_trace skb orig).1 = (ssdp_src_netmask skb orig).1 ∧
    (ssdp_src_netmask_trace skb orig).2.1 = (ssdp_src_netmask skb orig).2 := by
  have ht : (ssdp_src_netmask_trace skb orig).2.2 =
      RefEv.acquire :: ((ssdp_loop_visited l orig.srcIp).map RefEv.iterate
        ++ [RefEv.release]) := by
    unfold ssdp_src_netmask_trace
    rw [hdev]
  refine ⟨?_, ?_, ?_, ?_, ?_, ?_⟩
  · rw [ht]; rfl
  · rw [ht]
    simp [List.count_cons, List.count_append, count_acquire_map_iterate]
  · rw [ht]
    simp [List.count_cons, List.count_append, count_release_map_iterate]
  · rw [ht, show RefEv.acquire ::
        ((ssdp_loop_visited l orig.srcIp).map RefEv.iterate ++ [RefEv.release])
        = (RefEv.acquire ::
            (ssdp_loop_visited l orig.srcIp).map RefEv.iterate)
          ++ [RefEv.release] from rfl]
    exact List.getLast?_concat _
  · unfold ssdp_src_netmask_trace ssdp_src_netmask
    rw [hdev]
    by_cases h0 : ssdp_loop l orig.srcIp = 0 <;> simp [h0]
  · unfold ssdp_src_netmask_trace ssdp_src_netmask
    rw [hdev]
    by_cases h0 : ssdp_loop l orig.srcIp = 0 <;> simp [h0]

/-- C8 witness: the reference discipline on the sample device whose
address list holds one entry. -/
theorem ssdp_src_netmask_ref_discipline_witness :
    ((ssdp_src_netmask_trace sampleSkb sampleCt.origTuple).2.2).head?
      = some RefEv.acquire ∧
    ((ssdp_src_netmask_trace sampleSkb sampleCt.origTuple).2.2).count
      RefEv.acquire = 1 ∧
    ((ssdp_src_netmask_trace sampleSkb sampleCt.origTuple).2.2).count
      RefEv.release = 1 ∧
    ((ssdp_src_netmask_trace sampleSkb sampleCt.origTuple).2.2).getLast?
      = some RefEv.release ∧
    (ssdp_src_netmask_trace sampleSkb sampleCt.origTuple).1
      = (ssdp_src_netmask sampleSkb sampleCt.origTuple).1 ∧
    (ssdp_src_netmask_trace sampleSkb sampleCt.origTuple).2.1
      = (ssdp_src_netmask sampleSkb sampleCt.origTuple).2 :=
  ssdp_src_netmask_ref_discipline sampleSkb sampleCt.origTuple
    [sampleIfaddr] rfl

/-- C9: the resolver returns the mask of the first `ifa_list` entry whose
local address equals the query's source address, and entries after that
first match never influence the result. -/
theorem ssdp_src_netmask_first_match (skb : SkBuff) (orig : ConnTuple)
    (l1 : List Ifaddr) (a : Ifaddr) (rest : List Ifaddr)
    (hdev : skb.inDev = some (l1 ++ a :: rest))
    (hno : ∀ x ∈ l1, x.ifa_local ≠ orig.srcIp)
    (ha : a.ifa_local = orig.srcIp) :
    (ssdp_src_netmask skb orig).1 = a.ifa_mask ∧
    (∀ rest2,
      ssdp_src_netmask { skb with inDev := some (l1 ++ a :: rest2) } orig =
        ssdp_src_netmask skb orig) := by
  have hl : ssdp_loop (l1 ++ a :: rest) orig.srcIp = a.ifa_mask :=
    ssdp_loop_append_first l1 a rest orig.srcIp hno ha
  constructor
  · rw [ssdp_src_netmask_fst skb orig _ hdev, hl]
  · intro rest2
    have hl2 : ssdp_loop (l1 ++ a :: rest2) orig.srcIp = a.ifa_mask :=
      ssdp_loop_append_first l1 a rest2 orig.srcIp hno ha
    unfold ssdp_src_netmask
    rw [hdev]
    by_cases h0 : a.ifa_mask = 0 <;> simp [hl, hl2, h0]

/-- C9 witness: on a list holding a non-matching entry, the matching
192.168.1.50/24 entry, then a duplicate 192.168.1.50 entry with a
different mask, the resolver returns 255.255.255.0, and removing the
duplicate does not change its output. -/
theorem ssdp_src_netmask_first_match_witness :
    (ssdp_src_netmask sampleSkbMulti sampleCt.origTuple).1
      = sampleIfaddr.ifa_mask ∧
    ssdp_src_netmask
        { sampleSkbMulti with
          inDev := some ([sampleIfaddrOther] ++ sampleIfaddr :: []) }
        sampleCt.origTuple
      = ssdp_src_netmask sampleSkbMulti sampleCt.origTuple :=
  ⟨(ssdp_src_netmask_first_match sampleSkbMulti sampleCt.origTuple
      [sampleIfaddrOther] sampleIfaddr [sampleIfaddrDup] rfl (by decide)
      (by decide)).1,
   (ssdp_src_netmask_first_match sampleSkbMulti sampleCt.origTuple
      [sampleIfaddrOther] sampleIfaddr [sampleIfaddrDup] rfl (by decide)
      (by decide)).2 []⟩

end NfSsdp
